import Mathlib

/-!
Verification of the douyin image/video resolution pipeline
(`product_parser.py`, `video_parser.py`) against its specification.

The Python code is shallowly embedded: JSON-decoded values become the
inductive `JVal`; Python's dynamic operations (`get`, `len`, truthiness,
`in`, `lower`, `replace`, indexing, iteration) become total Lean functions
or `Except PyErr`-valued functions where the Python operation can raise.
JSON numbers are modelled as integers (no claim depends on floats).
Python dicts are modelled as association lists with unique keys in
insertion order.
-/

/-- A JSON-decoded Python value: dict / list / str / int / bool / None. -/
inductive JVal where
  | obj : List (String × JVal) → JVal
  | arr : List JVal → JVal
  | str : String → JVal
  | num : Int → JVal
  | bool : Bool → JVal
  | null : JVal

/-- Python exception kinds raised by the embedded code, with their message. -/
inductive PyErr where
  | valueError : String → PyErr
  | typeError : String → PyErr
  | attributeError : String → PyErr
  | keyError : String → PyErr
  | indexError : String → PyErr
  | exception : String → PyErr
deriving DecidableEq

/-- Does the character list `hay` start with `pat`? -/
def startsWithL : List Char → List Char → Bool
  | _, [] => true
  | [], _ :: _ => false
  | a :: as, b :: bs => a == b && startsWithL as bs

/-- Does `needle` occur as a contiguous run inside `hay`? -/
def hasSubL (hay needle : List Char) : Bool :=
  match hay with
  | [] => needle.isEmpty
  | _ :: t => startsWithL hay needle || hasSubL t needle

/-- Python `needle in hay` for strings. -/
def strIn (needle hay : String) : Bool :=
  hasSubL hay.data needle.data

/-- Replace every non-overlapping occurrence of `pat` in `hay` by `rep`,
left to right, as Python `str.replace` does (patterns used are non-empty).
The fuel argument makes the recursion structural; every step consumes at
least one character of `hay`, so fuel `hay.length` is never exhausted and
the `0, hay` case (returning `hay`) is unreachable. -/
def replaceFuel : Nat → List Char → List Char → List Char → List Char
  | _, [], _, _ => []
  | 0, hay, _, _ => hay
  | n + 1, a :: as, pat, rep =>
    if startsWithL (a :: as) pat && !pat.isEmpty then
      rep ++ replaceFuel n (List.drop (pat.length - 1) as) pat rep
    else
      a :: replaceFuel n as pat rep

/-- Replacement of every occurrence of `pat` in `hay` by `rep`. -/
def replaceL (hay pat rep : List Char) : List Char :=
  replaceFuel hay.length hay pat rep

/-- Python `hay.replace(pat, rep)`. -/
def strReplace (hay pat rep : String) : String :=
  String.mk (replaceL hay.data pat.data rep.data)

/-- Python `s.lower()` (ASCII case folding, enough for the URLs involved). -/
def pyLower (s : String) : String :=
  String.mk (s.data.map Char.toLower)

/-- Python truthiness of a JSON-decoded value. -/
def pyTruthy : JVal → Bool
  | .obj fs => !fs.isEmpty
  | .arr xs => !xs.isEmpty
  | .str s => !(s = "")
  | .num n => !(n = 0)
  | .bool b => b
  | .null => false

/-- Python type name, used in error messages. -/
def pyTypeName : JVal → String
  | .obj _ => "dict"
  | .arr _ => "list"
  | .str _ => "str"
  | .num _ => "int"
  | .bool _ => "bool"
  | .null => "NoneType"

/-- Lookup in an association list modelling a Python dict; `d` is the default. -/
def lookupField : List (String × JVal) → String → JVal → JVal
  | [], _, d => d
  | (k, v) :: rest, key, d => if k = key then v else lookupField rest key d

/-- Python `v.get(key, d)`: raises AttributeError when `v` is not a dict. -/
def pyGetD (v : JVal) (key : String) (d : JVal) : Except PyErr JVal :=
  match v with
  | .obj fs => .ok (lookupField fs key d)
  | v => .error (.attributeError ("'" ++ pyTypeName v ++ "' object has no attribute 'get'"))

/-- Python `v.get(key)` (default `None`). -/
def pyGet1 (v : JVal) (key : String) : Except PyErr JVal :=
  pyGetD v key .null

/-- Python `v == n` for an integer literal `n` (bool counts as int). -/
def pyEqInt (v : JVal) (n : Int) : Bool :=
  match v with
  | .num m => m = n
  | .bool b => (if b then (1 : Int) else 0) = n
  | _ => false

/-- Python `for x in v`: the sequence of iterated values
(list elements, string characters, dict keys); TypeError otherwise. -/
def pyIter (v : JVal) : Except PyErr (List JVal) :=
  match v with
  | .arr xs => .ok xs
  | .str s => .ok (s.data.map (fun c => JVal.str (String.mk [c])))
  | .obj fs => .ok (fs.map (fun p => JVal.str p.1))
  | v => .error (.typeError ("'" ++ pyTypeName v ++ "' object is not iterable"))

/-- Python `v[0]`. -/
def pyIndex0 (v : JVal) : Except PyErr JVal :=
  match v with
  | .arr (x :: _) => .ok x
  | .arr [] => .error (.indexError "list index out of range")
  | .str s =>
    match s.data with
    | c :: _ => .ok (.str (String.mk [c]))
    | [] => .error (.indexError "string index out of range")
  | .obj _ => .error (.keyError "0")
  | v => .error (.typeError ("'" ++ pyTypeName v ++ "' object is not subscriptable"))

/-- Python `needle in v` where `needle` is a string: substring test for a
string, membership for a list, key membership for a dict, TypeError else. -/
def pyInJ (needle : String) (v : JVal) : Except PyErr Bool :=
  match v with
  | .str s => .ok (strIn needle s)
  | .arr xs => .ok (xs.any (fun x => match x with | .str s => s == needle | _ => false))
  | .obj fs => .ok (fs.any (fun p => p.1 == needle))
  | v => .error (.typeError ("argument of type '" ++ pyTypeName v ++ "' is not iterable"))

/-- Require a string (for `.replace`); AttributeError otherwise. -/
def asStrRep (v : JVal) : Except PyErr String :=
  match v with
  | .str s => .ok s
  | v => .error (.attributeError ("'" ++ pyTypeName v ++ "' object has no attribute 'replace'"))

/-- Escape one character for Python `repr` of a string quoted by `q`. -/
def pyEscChar (q c : Char) : List Char :=
  if c = '\\' then ['\\', '\\']
  else if c = q then ['\\', q]
  else if c = '\n' then ['\\', 'n']
  else if c = '\r' then ['\\', 'r']
  else if c = '\t' then ['\\', 't']
  else [c]

/-- Python `repr` of a string: single quotes unless the string holds a single
quote and no double quote. -/
def pyReprStr (s : String) : String :=
  let useDq := s.data.contains '\'' && !(s.data.contains '"')
  let q : Char := if useDq then '"' else '\''
  String.mk (q :: (s.data.map (pyEscChar q)).flatten ++ [q])

mutual

/-- Python `repr` of a JSON-decoded value. -/
def pyRepr : JVal → String
  | .str s => pyReprStr s
  | .num n => toString n
  | .bool b => if b then "True" else "False"
  | .null => "None"
  | .arr xs => "[" ++ pyReprList xs ++ "]"
  | .obj fs => "\x7b" ++ pyReprFields fs ++ "\x7d"

/-- Comma-separated reprs of list elements. -/
def pyReprList : List JVal → String
  | [] => ""
  | [x] => pyRepr x
  | x :: y :: rest => pyRepr x ++ ", " ++ pyReprList (y :: rest)

/-- Comma-separated `key: value` reprs of dict entries. -/
def pyReprFields : List (String × JVal) → String
  | [] => ""
  | [(k, v)] => pyReprStr k ++ ": " ++ pyRepr v
  | (k, v) :: p :: rest => pyReprStr k ++ ": " ++ pyRepr v ++ ", " ++ pyReprFields (p :: rest)

end

/-- Python `str(v)`: the string itself for a string, `repr` otherwise. -/
def pyStr (v : JVal) : String :=
  match v with
  | .str s => s
  | v => pyRepr v

mutual

/-- Python `==` on JSON-decoded values (structural, with Python's
bool-as-int equality). -/
def jvalBEq : JVal → JVal → Bool
  | .obj a, .obj b => fieldsBEq a b
  | .arr a, .arr b => elemsBEq a b
  | .str a, .str b => a == b
  | .num a, .num b => a == b
  | .bool a, .bool b => a == b
  | .bool a, .num b => (if a then (1 : Int) else 0) == b
  | .num a, .bool b => a == (if b then (1 : Int) else 0)
  | .null, .null => true
  | _, _ => false

/-- Pointwise `==` on dict entries. -/
def fieldsBEq : List (String × JVal) → List (String × JVal) → Bool
  | [], [] => true
  | (k, v) :: rest, (k', v') :: rest' => k == k' && jvalBEq v v' && fieldsBEq rest rest'
  | _, _ => false

/-- Pointwise `==` on list elements. -/
def elemsBEq : List JVal → List JVal → Bool
  | [], [] => true
  | x :: rest, y :: rest' => jvalBEq x y && elemsBEq rest rest'
  | _, _ => false

end

/-! ## `product_parser.py`: `_is_valid_product_image` -/

/-- The `exclude_patterns` list of `_is_valid_product_image`, in source order. -/
def excludePats : List String :=
  ["icon", "logo", "avatar", "emoji", "badge",
   "loading", "placeholder", "default",
   "1x1", "2x2", "blank", "transparent",
   "sprite", "btn", "button"]

/-- Recognized image extensions of `_is_valid_product_image`. -/
def extList : List String := [".jpg", ".jpeg", ".png", ".webp"]

/-- The hosting-domain allow-list of `_is_valid_product_image`. -/
def cdnList : List String :=
  ["ecombdimg.com", "bytetos.com", "douyinpic.com", "byteimg.com"]

/-- `_is_valid_product_image` on a string argument (the Python code computes
`url_lower = url.lower()` once; it is repeated here verbatim). -/
def validStr (url : String) : Bool :=
  if url.length = 0 then false
  else if url.length < 20 then false
  else if excludePats.any (fun p => strIn p (pyLower url)) then false
  else if !(extList.any (fun e => strIn e (pyLower url)))
          && !(cdnList.any (fun c => strIn c (pyLower url))) then false
  else true

/-- `_is_valid_product_image` on an arbitrary value, as the
`img.get('url') or ...` branch of `_extract_images_from_json` can call it:
`if not url` rejects falsy values; `len(url)` raises TypeError on int/bool;
`url.lower()` raises AttributeError on list/dict of length at least 20. -/
def validJ : JVal → Except PyErr Bool
  | .str s => .ok (validStr s)
  | v =>
    if !pyTruthy v then .ok false
    else match v with
      | .num _ => .error (.typeError "object of type 'int' has no len()")
      | .bool _ => .error (.typeError "object of type 'bool' has no len()")
      | .arr xs =>
        if xs.length < 20 then .ok false
        else .error (.attributeError "'list' object has no attribute 'lower'")
      | .obj fs =>
        if fs.length < 20 then .ok false
        else .error (.attributeError "'dict' object has no attribute 'lower'")
      | _ => .ok false

/-! ## `product_parser.py`: the main/detail classification of harvested URLs
(`_parse_with_playwright` lines 273-284 and `_parse_html` lines 395-405).
The input list is the enumeration order of the harvested `all_images` set. -/

/-- Keywords of the Playwright strategy (`_parse_with_playwright`), matched
against `img_url.lower()`. -/
def pwKw : List String := ["main", "primary", "cover", "thumb", "origin"]

/-- Keywords of the static-HTML strategy (`_parse_html`), matched against
`img_url` unchanged. -/
def htmlKw : List String := ["main", "primary", "cover", "thumb"]

/-- `any(kw in img_url.lower() for kw in [...])` in `_parse_with_playwright`. -/
def pwMatch (u : String) : Bool := pwKw.any (fun kw => strIn kw (pyLower u))

/-- `any(kw in img_url for kw in [...])` in `_parse_html`. -/
def htmlMatch (u : String) : Bool := htmlKw.any (fun kw => strIn kw u)

/-- One iteration of the classification loop: append to main on a keyword
match, to detail otherwise. -/
def classifyStep (f : String → Bool) (acc : List String × List String) (u : String) :
    List String × List String :=
  if f u then (acc.1 ++ [u], acc.2) else (acc.1, acc.2 ++ [u])

/-- `if not main_images and detail_images: main_images = detail_images[:5];
detail_images = detail_images[5:]`. -/
def promoteFirst5 (p : List String × List String) : List String × List String :=
  if p.1.isEmpty && !p.2.isEmpty then (p.2.take 5, p.2.drop 5) else p

/-- The classification loop followed by the promotion step. -/
def classifyImages (f : String → Bool) (urls : List String) :
    List String × List String :=
  promoteFirst5 (urls.foldl (classifyStep f) ([], []))

/-- URL classification of `_parse_with_playwright`. -/
def classifyPw : List String → List String × List String := classifyImages pwMatch

/-- URL classification of `_parse_html`. -/
def classifyHtml : List String → List String × List String := classifyImages htmlMatch

/-! ## `product_parser.py`: `_find_product_in_router` (targeted mode). -/

/-- The container-key allow-list of `_find_product_in_router`. -/
def containerKeys : List String :=
  ["product", "goods", "item", "productinfo", "goodsinfo", "data"]

/-- The image-relation terms checked against `str(value).lower()`. -/
def imageTerms : List String := ["images", "img", "pic", "gallery"]

/-- `isinstance(v, dict)`. -/
def isObjB : JVal → Bool
  | .obj _ => true
  | _ => false

/-- `isinstance(v, (dict, list))`. -/
def isContainer : JVal → Bool
  | .obj _ => true
  | .arr _ => true
  | _ => false

mutual

/-- `_find_product_in_router(data, depth)` with fuel = 16 - depth, so that
fuel 0 is exactly the `depth > 15` cutoff returning None. -/
def findAux : Nat → JVal → Option JVal
  | 0, _ => none
  | f + 1, .obj fs => findFields f fs
  | f + 1, .arr xs => findItems f xs
  | _ + 1, _ => none

/-- The `for key, value in data.items()` loop of `_find_product_in_router`. -/
def findFields : Nat → List (String × JVal) → Option JVal
  | _, [] => none
  | f, (k, v) :: rest =>
    let kl := pyLower k
    if containerKeys.contains kl && isObjB v
        && imageTerms.any (fun t => strIn t (pyLower (pyStr v))) then
      some v
    else
      match (if isContainer v then findAux f v else none) with
      | some r => if pyTruthy r then some r else findFields f rest
      | none => findFields f rest

/-- The `for item in data` loop of `_find_product_in_router`. -/
def findItems : Nat → List JVal → Option JVal
  | _, [] => none
  | f, x :: rest =>
    match (if isContainer x then findAux f x else none) with
    | some r => if pyTruthy r then some r else findItems f rest
    | none => findItems f rest

end

/-- `_find_product_in_router(data, depth)`. -/
def findProductInRouter (data : JVal) (depth : Nat) : Option JVal :=
  findAux (16 - depth) data

/-! ## `product_parser.py`: `_extract_images_from_json` (generic mode). -/

/-- The accumulator dict `result = {'main': [], 'detail': [], 'title': '',
'video': None}` of `_extract_images_from_json`. -/
structure ExtractResult where
  main : List JVal
  detail : List JVal
  title : String
  video : Option String

/-- The fresh result at the start of each call. -/
def emptyResult : ExtractResult := ⟨[], [], "", none⟩

/-- Key lists of `_extract_images_from_json`, in source order. -/
def imageKeys : List String := ["images", "imgs", "image_list", "pic_list", "gallery", "photos"]

/-- `main_keys` of `_extract_images_from_json`. -/
def mainKeys : List String := ["main_img", "main_image", "cover", "thumb", "primary"]

/-- `detail_keys` of `_extract_images_from_json`. -/
def detailKeys : List String := ["detail_images", "desc_images", "detail_pics"]

/-- `title_keys` of `_extract_images_from_json`. -/
def titleKeys : List String := ["title", "name", "product_name", "goods_name"]

/-- `video_keys` of `_extract_images_from_json`. -/
def videoKeys : List String := ["video", "video_url", "video_src"]

/-- `any(k in key_lower for k in kws)`. -/
def anySubKw (kws : List String) (keyLower : String) : Bool :=
  kws.any (fun k => strIn k keyLower)

/-- `if key_lower in title_keys and isinstance(value, str): result['title'] = value`. -/
def titleUpd (kl : String) (v : JVal) (acc : ExtractResult) : ExtractResult :=
  match v with
  | .str s => if titleKeys.contains kl then { acc with title := s } else acc
  | _ => acc

/-- `if key_lower in video_keys and isinstance(value, str): result['video'] = value`. -/
def videoUpd (kl : String) (v : JVal) (acc : ExtractResult) : ExtractResult :=
  match v with
  | .str s => if videoKeys.contains kl then { acc with video := some s } else acc
  | _ => acc

/-- Python `a or b` on values (left operand if truthy). -/
def pyOr (a b : JVal) : JVal := if pyTruthy a then a else b

/-- `img.get('url') or img.get('src') or img.get('img')` on a dict `fs`. -/
def getUrlSrcImg (fs : List (String × JVal)) : JVal :=
  pyOr (lookupField fs "url" .null)
    (pyOr (lookupField fs "src" .null) (lookupField fs "img" .null))

/-- The candidate a single element of an image list contributes:
a valid string directly, or a dict's truthy-and-valid `url`/`src`/`img`
value; `none` when the element is skipped.  Mirrors the two
`isinstance` branches of each image-list loop; `validJ` can raise. -/
def elemCand (img : JVal) : Except PyErr (Option JVal) :=
  match img with
  | .str s => .ok (if validStr s then some (.str s) else none)
  | .obj fs =>
    let u := getUrlSrcImg fs
    if pyTruthy u then do
      let b ← validJ u
      pure (if b then some u else none)
    else .ok none
  | _ => .ok none

/-- Append to `result['main']`. -/
def pushMain (acc : ExtractResult) (u : JVal) : ExtractResult :=
  { acc with main := acc.main ++ [u] }

/-- Append to `result['detail']`. -/
def pushDetail (acc : ExtractResult) (u : JVal) : ExtractResult :=
  { acc with detail := acc.detail ++ [u] }

/-- `if len(result['main']) < 5: main.append(img) else: detail.append(img)`. -/
def pushImage (acc : ExtractResult) (u : JVal) : ExtractResult :=
  if acc.main.length < 5 then pushMain acc u else pushDetail acc u

/-- The `for img in value` loop shared by the main / detail / generic image
branches, parameterised by where an accepted candidate is appended. -/
def appendCandidates (push : ExtractResult → JVal → ExtractResult) :
    List JVal → ExtractResult → Except PyErr ExtractResult
  | [], acc => .ok acc
  | img :: rest, acc => do
    let c ← elemCand img
    let acc' := match c with
      | some u => push acc u
      | none => acc
    appendCandidates push rest acc'

/-- The main-image branch (`if any(k in key_lower for k in main_keys)`). -/
def mainBranch (kl : String) (v : JVal) (acc : ExtractResult) :
    Except PyErr ExtractResult :=
  if anySubKw mainKeys kl then
    match v with
    | .str s => .ok (if validStr s then pushMain acc (.str s) else acc)
    | .arr imgs => appendCandidates pushMain imgs acc
    | _ => .ok acc
  else .ok acc

/-- The detail-image branch (`if any(k in key_lower for k in detail_keys)`);
only a list value is processed. -/
def detailBranch (kl : String) (v : JVal) (acc : ExtractResult) :
    Except PyErr ExtractResult :=
  if anySubKw detailKeys kl then
    match v with
    | .arr imgs => appendCandidates pushDetail imgs acc
    | _ => .ok acc
  else .ok acc

/-- The generic image-list branch (`if any(k in key_lower for k in
image_keys)`): candidates go to main while it has fewer than 5 entries,
then to detail. -/
def imageBranch (kl : String) (v : JVal) (acc : ExtractResult) :
    Except PyErr ExtractResult :=
  if anySubKw imageKeys kl then
    match v with
    | .arr imgs => appendCandidates pushImage imgs acc
    | _ => .ok acc
  else .ok acc

/-- `if not result['video']` truthiness: `None` and `''` are falsy. -/
def videoTruthy : Option String → Bool
  | none => false
  | some s => !(s = "")

/-- Merge a nested recursive result in the dict loop (`if nested:` —
the nested result dict is always truthy when not None). -/
def mergeNestedObj (acc : ExtractResult) : Option ExtractResult → ExtractResult
  | none => acc
  | some n =>
    { main := acc.main ++ n.main
      detail := acc.detail ++ n.detail
      title := if acc.title = "" then n.title else acc.title
      video := if videoTruthy acc.video then acc.video else n.video }

/-- Merge a nested recursive result in the list loop (main/detail only). -/
def mergeNestedArr (acc : ExtractResult) : Option ExtractResult → ExtractResult
  | none => acc
  | some n => { acc with main := acc.main ++ n.main, detail := acc.detail ++ n.detail }

/-- Order-preserving dedup by Python `==`, as `list(dict.fromkeys(...))`. -/
def dedupSeen (seen : List JVal) : List JVal → List JVal
  | [] => []
  | x :: rest =>
    if seen.any (fun y => jvalBEq y x) then dedupSeen seen rest
    else x :: dedupSeen (x :: seen) rest

/-- `list(dict.fromkeys(xs))`. -/
def dedupJ (xs : List JVal) : List JVal := dedupSeen [] xs

/-- The final dedup and `if result['main'] or result['detail']` check. -/
def finishResult (r : ExtractResult) : Option ExtractResult :=
  let m := dedupJ r.main
  let d := dedupJ r.detail
  if m.isEmpty && d.isEmpty then none
  else some { r with main := m, detail := d }

mutual

/-- `_extract_images_from_json(data, depth)` with fuel = 11 - depth, so that
fuel 0 is exactly the `depth > 10` cutoff returning None. -/
def extractAux : Nat → JVal → Except PyErr (Option ExtractResult)
  | 0, _ => .ok none
  | f + 1, .obj fs => do
    let r ← extractFields f fs emptyResult
    pure (finishResult r)
  | f + 1, .arr xs => do
    let r ← extractItems f xs emptyResult
    pure (finishResult r)
  | _ + 1, _ => .ok (finishResult emptyResult)

/-- The `for key, value in data.items()` loop of `_extract_images_from_json`:
title, video, main, detail, generic-image branches, then the recursive
search into dict/list values. -/
def extractFields : Nat → List (String × JVal) → ExtractResult →
    Except PyErr ExtractResult
  | _, [], acc => .ok acc
  | f, (k, v) :: rest, acc => do
    let kl := pyLower k
    let acc := titleUpd kl v acc
    let acc := videoUpd kl v acc
    let acc ← mainBranch kl v acc
    let acc ← detailBranch kl v acc
    let acc ← imageBranch kl v acc
    let acc ← (if isContainer v then do
        let nested ← extractAux f v
        pure (mergeNestedObj acc nested)
      else pure acc)
    extractFields f rest acc

/-- The `for item in data` loop of `_extract_images_from_json`. -/
def extractItems : Nat → List JVal → ExtractResult → Except PyErr ExtractResult
  | _, [], acc => .ok acc
  | f, x :: rest, acc => do
    let acc ← (if isContainer x then do
        let nested ← extractAux f x
        pure (mergeNestedArr acc nested)
      else pure acc)
    extractItems f rest acc

end

/-- `_extract_images_from_json(data, depth)`. -/
def extractImagesFromJson (data : JVal) (depth : Nat) :
    Except PyErr (Option ExtractResult) :=
  extractAux (11 - depth) data

/-! ## Identifier extraction: `extract_product_id` (`product_parser.py`)
and `extract_video_id` / the fatal check in `parse` (`video_parser.py`). -/

/-- `re.search(lit + r'(\d+)', hay)`: leftmost position where the literal
is followed by at least one digit; the captured group is the maximal digit
run there. -/
def searchLitD (lit : List Char) : List Char → Option String
  | [] => none
  | c :: rest =>
    if startsWithL (c :: rest) lit then
      let after := List.drop lit.length (c :: rest)
      let ds := after.takeWhile Char.isDigit
      if ds.isEmpty then searchLitD lit rest else some (String.mk ds)
    else searchLitD lit rest

/-- `re.search(r'/(\d{15,})(?:\?|$|&)', hay)`: a slash followed by a maximal
run of at least 15 digits terminated by `?`, `&` or the end of the string. -/
def searchDigits15 : List Char → Option String
  | [] => none
  | c :: rest =>
    if c = '/' then
      let ds := rest.takeWhile Char.isDigit
      if ds.length ≥ 15
          && (match List.drop ds.length rest with
              | [] => true
              | d :: _ => d = '?' || d = '&') then
        some (String.mk ds)
      else searchDigits15 rest
    else searchDigits15 rest

/-- The ordered pattern scan of `extract_product_id` (first match wins). -/
def productIdSearch (url : String) : Option String :=
  match searchLitD "commodity_id=".data url.data with
  | some i => some i
  | none =>
    match searchLitD "id=".data url.data with
    | some i => some i
    | none =>
      match searchLitD "product_id=".data url.data with
      | some i => some i
      | none => searchDigits15 url.data

/-- `DouyinProductParser.extract_product_id`: first pattern match, else the
`SHORT_LINK` sentinel for douyin URLs, else ValueError. -/
def extract_product_id (url : String) : Except PyErr String :=
  match productIdSearch url with
  | some i => .ok i
  | none =>
    if strIn "v.douyin.com" url || strIn "douyin.com" url then .ok "SHORT_LINK"
    else .error (.valueError "无法从URL中提取商品ID")

/-- `DouyinVideoParser.extract_video_id`: `/video/(\d+)`, then
`modal_id=(\d+)`, then `/note/(\d+)`. -/
def extractVideoId (url : String) : Option String :=
  match searchLitD "/video/".data url.data with
  | some i => some i
  | none =>
    match searchLitD "modal_id=".data url.data with
    | some i => some i
    | none => searchLitD "/note/".data url.data

/-- Lines 134-137 of `video_parser.py` `parse`: extract the video id from
the (already redirect-resolved) URL or raise ValueError. -/
def videoIdOrFail (real_url : String) : Except PyErr String :=
  match extractVideoId real_url with
  | some i => .ok i
  | none => .error (.valueError ("Cannot extract video ID from URL: " ++ real_url))

/-- Checks whether an `Except` is an error. -/
def isErr {α : Type} (e : Except PyErr α) : Bool :=
  match e with
  | .error _ => true
  | .ok _ => false

/-! ## `video_parser.py`: `VideoInfo`, `_extract_video_info_v2`,
`_parse_from_mobile_api`, `_get_no_watermark_url`. Fields keep the dynamic
values the Python code stores in them. -/

/-- The `VideoInfo` model as filled by the parser. -/
structure VideoInfo where
  video_id : JVal
  title : JVal
  author : JVal
  author_id : JVal
  cover_url : JVal
  video_url : JVal
  music_url : JVal
  duration : JVal
  create_time : JVal
  statistics : List (String × JVal)

/-- `url_list[0]` taken when a cover / music url_list is truthy, else `''`. -/
def firstUrlOr (ul : JVal) (d : JVal) : Except PyErr JVal :=
  if pyTruthy ul then pyIndex0 ul else .ok d

/-- `_extract_video_info_v2(item)`. -/
def extract_video_info_v2 (item : JVal) : Except PyErr VideoInfo := do
  let video_id ← pyGetD item "aweme_id" (.str "")
  let title ← pyGetD item "desc" (.str "")
  let author_info ← pyGetD item "author" (.obj [])
  let author ← pyGetD author_info "nickname" (.str "")
  let author_id ← pyGetD author_info "uid" (.str "")
  let video1 ← pyGetD item "video" (.obj [])
  let cover ← pyGetD video1 "cover" (.obj [])
  let cover_url ← (if pyTruthy cover then do
      let ul ← pyGetD cover "url_list" (.arr [])
      firstUrlOr ul (.str "")
    else pure (JVal.str ""))
  let video2 ← pyGetD item "video" (.obj [])
  let play_addr ← pyGetD video2 "play_addr" (.obj [])
  let video_url ← (if pyTruthy play_addr then do
      let ul ← pyGetD play_addr "url_list" (.arr [])
      if pyTruthy ul then do
        let u0 ← pyIndex0 ul
        let s ← asStrRep u0
        pure (JVal.str (strReplace (strReplace s "watermark=1" "watermark=0") "playwm" "play"))
      else pure (JVal.str "")
    else pure (JVal.str ""))
  let music ← pyGetD item "music" (.obj [])
  let music_url ← (if pyTruthy music then do
      let play_url ← pyGetD music "play_url" (.obj [])
      if pyTruthy play_url then do
        let ul ← pyGetD play_url "url_list" (.arr [])
        firstUrlOr ul (.str "")
      else pure (JVal.str "")
    else pure (JVal.str ""))
  let statistics ← pyGetD item "statistics" (.obj [])
  let digg ← pyGetD statistics "digg_count" (.num 0)
  let comment ← pyGetD statistics "comment_count" (.num 0)
  let share ← pyGetD statistics "share_count" (.num 0)
  let collect ← pyGetD statistics "collect_count" (.num 0)
  let video3 ← pyGetD item "video" (.obj [])
  let duration ← pyGetD video3 "duration" (.num 0)
  let create_time ← pyGetD item "create_time" (.num 0)
  pure
    { video_id := video_id
      title := title
      author := author
      author_id := author_id
      cover_url := cover_url
      video_url := video_url
      music_url := music_url
      duration := duration
      create_time := create_time
      statistics :=
        [("digg_count", digg), ("comment_count", comment),
         ("share_count", share), ("collect_count", collect)] }

/-- `_parse_from_mobile_api` after the HTTP response has been decoded to
`data`: status check, `item_list` truthiness, then extraction of item 0. -/
def parse_from_mobile_api (data : JVal) : Except PyErr (Option VideoInfo) := do
  let sc ← pyGet1 data "status_code"
  if !pyEqInt sc 0 then pure none
  else do
    let il ← pyGetD data "item_list" (.arr [])
    if !pyTruthy il then pure none
    else do
      let aweme ← pyIndex0 il
      let vi ← extract_video_info_v2 aweme
      pure (some vi)

/-- The method-1 step of `parse` (lines 140-145): the strategy's exception
is swallowed, and any returned `VideoInfo` object is truthy, so it is
returned as the chain's success. -/
def mobileStepReturns (data : JVal) : Option VideoInfo :=
  match parse_from_mobile_api data with
  | .ok (some v) => some v
  | _ => none

/-- The `for url in url_list` loop of `_get_no_watermark_url` method 1:
rewrite the watermark toggle, return the first URL that is on
`aweme.snssdk.com` or not on `v.douyin.com`. -/
def playAddrLoop : List JVal → Except PyErr (Option JVal)
  | [] => .ok none
  | url :: rest => do
    let hasWm ← pyInJ "watermark" url
    let url' ← (if hasWm then do
        let s ← asStrRep url
        pure (JVal.str (strReplace s "watermark=1" "watermark=0"))
      else pure url)
    let c1 ← pyInJ "aweme.snssdk.com" url'
    let c2 ← pyInJ "v.douyin.com" url'
    if c1 || !c2 then pure (some url')
    else playAddrLoop rest

/-- `x.get('bit_rate', 0)` as an Int sort key; Python would raise TypeError
when comparing a non-numeric key (bool counts as int). -/
def bitRateKey : JVal → Option Int
  | .num n => some n
  | .bool b => some (if b then 1 else 0)
  | _ => none

/-- Stable insertion keeping elements with a key `≥ kx` in front: builds
Python `sorted(..., reverse=True)` order. -/
def insDesc (kx : Int) (x : JVal) : List (Int × JVal) → List (Int × JVal)
  | [] => [(kx, x)]
  | (ky, y) :: rest =>
    if ky ≥ kx then (ky, y) :: insDesc kx x rest
    else (kx, x) :: (ky, y) :: rest

/-- Fold of `insDesc` over the list in original order (stable descending). -/
def sortDescPairs : List (Int × JVal) → List (Int × JVal) → List (Int × JVal)
  | acc, [] => acc
  | acc, (k, x) :: rest => sortDescPairs (insDesc k x acc) rest

/-- `sorted(bit_rate, key=lambda x: x.get('bit_rate', 0), reverse=True)`:
keys are computed first (raising AttributeError on non-dict elements),
then a TypeError is raised when several elements have a non-numeric key
to compare, else the stable descending order. -/
def sortedByBitRate (rates : List JVal) : Except PyErr (List JVal) := do
  let keyed ← rates.mapM (fun x => do
    let k ← pyGetD x "bit_rate" (.num 0)
    pure (k, x))
  if rates.length ≥ 2 && keyed.any (fun p => (bitRateKey p.1).isNone) then
    .error (.typeError "'<' not supported between instance types")
  else
    pure ((sortDescPairs [] (keyed.map (fun p => ((bitRateKey p.1).getD 0, p.2)))).map Prod.snd)

/-- The `for rate in sorted_rates` loop of `_get_no_watermark_url` method 2. -/
def bitRateLoop : List JVal → Except PyErr (Option JVal)
  | [] => .ok none
  | rate :: rest => do
    let pa ← pyGetD rate "play_addr" (.obj [])
    let ul ← pyGetD pa "url_list" (.arr [])
    if pyTruthy ul then do
      let u0 ← pyIndex0 ul
      let s ← asStrRep u0
      pure (some (JVal.str (strReplace s "watermark=1" "watermark=0")))
    else bitRateLoop rest

/-- `_get_no_watermark_url(aweme_detail)`. -/
def get_no_watermark_url (aweme_detail : JVal) : Except PyErr JVal := do
  let video_info ← pyGetD aweme_detail "video" (.obj [])
  let play_addr ← pyGetD video_info "play_addr" (.obj [])
  let r1 ← (if pyTruthy play_addr then do
      let url_list ← pyGetD play_addr "url_list" (.arr [])
      let items ← pyIter url_list
      let sel ← playAddrLoop items
      match sel with
      | some u => pure (some u)
      | none =>
        if pyTruthy url_list then do
          let u0 ← pyIndex0 url_list
          let s ← asStrRep u0
          pure (some (JVal.str (strReplace s "watermark=1" "watermark=0")))
        else pure none
    else pure none)
  match r1 with
  | some u => pure u
  | none => do
    let bit_rate ← pyGetD video_info "bit_rate" (.arr [])
    let r2 ← (if pyTruthy bit_rate then do
        let rates ← pyIter bit_rate
        let sorted_rates ← sortedByBitRate rates
        bitRateLoop sorted_rates
      else pure none)
    match r2 with
    | some u => pure u
    | none => do
      let download_addr ← pyGetD video_info "download_addr" (.obj [])
      let r3 ← (if pyTruthy download_addr then do
          let ul ← pyGetD download_addr "url_list" (.arr [])
          if pyTruthy ul then do
            let u0 ← pyIndex0 ul
            pure (some u0)
          else pure none
        else pure none)
      match r3 with
      | some u => pure u
      | none => .error (.exception "Cannot find video URL")

/-- An aweme detail record whose `video.play_addr.url_list` is the given
list of URL strings. -/
def awemeWithPlayAddr (us : List String) : JVal :=
  .obj [("video", .obj [("play_addr", .obj [("url_list", .arr (us.map JVal.str))])])]

/-! ## `product_parser.py`: `ProductInfo` and the strategy chain of `parse`. -/

/-- The `ProductInfo` dataclass. -/
structure ProductInfo where
  product_id : String
  title : String
  main_images : List String
  detail_images : List String
  video_url : Option String

/-- The fixed message of the error `parse` raises when every strategy fails. -/
def productExhaustedMsg : String := "无法获取商品信息，请检查链接是否正确"

/-- The strategy chain of `DouyinProductParser.parse` after identifier
extraction: each strategy catches its own exceptions internally and yields
`None` on failure (discarding the reason), `parse` returns the first truthy
result, and raises a plain ValueError when both are `None`. -/
def productParseChain (pid : Except PyErr String) (r1 r2 : Option ProductInfo) :
    Except PyErr ProductInfo :=
  match pid with
  | .error e => .error e
  | .ok _ =>
    match r1 with
    | some p => .ok p
    | none =>
      match r2 with
      | some p => .ok p
      | none => .error (.valueError productExhaustedMsg)

/-! ## Concrete inputs and small derived definitions used by the theorems. -/

/-- The disallow-list as the specification states it. -/
def c6Disallow : List String :=
  ["icon", "logo", "avatar", "placeholder", "sprite", "button", "blank",
   "transparent", "emoji", "badge", "default", "1x1", "2x2"]

/-- The candidate an image-list element yields when its processing neither
raises nor skips it. -/
def exceptCand : Except PyErr (Option JVal) → Option JVal
  | .ok (some u) => some u
  | _ => none

/-- The accepted candidates of an image list, in order. -/
def goodCands (imgs : List JVal) : List JVal :=
  imgs.filterMap (fun i => exceptCand (elemCand i))

/-- A tree nested `n` dict levels deep. -/
def nestN : Nat → JVal
  | 0 => .str "leaf"
  | n + 1 => .obj [("k", nestN n)]

/-- The image URL of the specification's router-data scenario. -/
def c8Url : String := "https://p1-aio.ecombdimg.com/x.jpg"

/-- The object stored under the allow-listed container key `item`. -/
def c8Item : JVal := .obj [("images", .arr [.str c8Url])]

/-- The decoded `window._ROUTER_DATA` tree of the scenario. -/
def c8Tree : JVal := .obj [("a", .obj [("item", c8Item)])]

/-- Seven valid image URLs fed to the generic image-list branch. -/
def c9Imgs : List JVal :=
  [.str "https://p.ecombdimg.com/item/a1.jpg", .str "https://p.ecombdimg.com/item/a2.jpg",
   .str "https://p.ecombdimg.com/item/a3.jpg", .str "https://p.ecombdimg.com/item/a4.jpg",
   .str "https://p.ecombdimg.com/item/a5.jpg", .str "https://p.ecombdimg.com/item/a6.jpg",
   .str "https://p.ecombdimg.com/item/a7.jpg"]

/-- The result of running the generic image-list branch on `c9Imgs` from an
empty accumulator: the first five candidates in main, the rest in detail. -/
def c9Res : ExtractResult :=
  { main :=
      [.str "https://p.ecombdimg.com/item/a1.jpg", .str "https://p.ecombdimg.com/item/a2.jpg",
       .str "https://p.ecombdimg.com/item/a3.jpg", .str "https://p.ecombdimg.com/item/a4.jpg",
       .str "https://p.ecombdimg.com/item/a5.jpg"]
    detail :=
      [.str "https://p.ecombdimg.com/item/a6.jpg", .str "https://p.ecombdimg.com/item/a7.jpg"]
    title := ""
    video := none }

/-! ## Theorems settling the claims. -/

/-- C8: on the decoded tree of the scenario, targeted-mode mining locates
the object under the allow-listed container key `item` (its serialized form
mentions an image term), and generic extraction on that object yields
exactly the one-element main-image list. -/
theorem c8_router_scenario :
    findProductInRouter c8Tree 0 = some c8Item ∧
    extractImagesFromJson c8Item 0 =
      .ok (some { main := [JVal.str c8Url], detail := [], title := "", video := none }) :=
  ⟨rfl, rfl⟩

/-- C7: the generic miner does not skip every unexpected node type silently:
on the tree `{"images": [{"url": 5}]}` the `url` value reaches
`_is_valid_product_image`, whose `len(url)` raises a TypeError.  Recursion
beyond the depth bound, by contrast, does return the empty result without
error, as the 50-deep tree shows for both modes. -/
theorem c7_miner_crash :
    extractImagesFromJson (.obj [("images", .arr [.obj [("url", .num 5)]])]) 0 =
      .error (.typeError "object of type 'int' has no len()") ∧
    findProductInRouter (nestN 50) 0 = none ∧
    extractImagesFromJson (nestN 50) 0 = .ok none :=
  ⟨rfl, rfl, rfl⟩

/-- C3 counterexample: with every strategy failed, `parse` raises a plain
ValueError with a fixed message — not a `ResolutionExhaustedError`
carrying a per-strategy diagnostic list (no such class or list exists;
the same fixed-message error is raised whatever the strategies' reasons
were, which are discarded before `parse` sees them). -/
theorem c3_counterexample :
    productParseChain (.ok "3546000000000000001") none none =
      .error (.valueError productExhaustedMsg) ∧
    productExhaustedMsg = "无法获取商品信息，请检查链接是否正确" :=
  ⟨rfl, rfl⟩

/-- C3 amended: when both product strategies fail, `parse` raises a plain
ValueError with the fixed message, independent of the product id and of
why the strategies failed. -/
theorem c3_exhausted_amended (pid : String) (r1 r2 : Option ProductInfo)
    (h1 : r1 = none) (h2 : r2 = none) :
    productParseChain (.ok pid) r1 r2 = .error (.valueError productExhaustedMsg) := by
  subst h1
  subst h2
  rfl

/-- Witness for the amended C3 theorem at a concrete input. -/
theorem c3_exhausted_amended_witness :
    productParseChain (.ok "123") none none = .error (.valueError productExhaustedMsg) :=
  c3_exhausted_amended "123" none none rfl rfl

/-- C4 counterexample: a recognized-host video URL with no matching
identifier pattern makes video `parse` raise the fatal ValueError at the
identifier-extraction step — no pending sentinel is produced.  The URL is
not a short link and not a share page, so `real_url` is the input itself. -/
theorem c4_counterexample :
    videoIdOrFail "https://www.douyin.com/user/abc" =
      .error (.valueError "Cannot extract video ID from URL: https://www.douyin.com/user/abc") ∧
    strIn "douyin.com" "https://www.douyin.com/user/abc" = true ∧
    strIn "v.douyin.com" "https://www.douyin.com/user/abc" = false ∧
    strIn "vm.tiktok.com" "https://www.douyin.com/user/abc" = false ∧
    strIn "iesdouyin.com/share/video/" "https://www.douyin.com/user/abc" = false :=
  ⟨rfl, by decide, by decide, by decide, by decide⟩

/-- C2 counterexample: a mobile-API response with status 0 and one item
that has no play address terminates the chain as a success whose
`video_url` is the empty string. -/
theorem c2_counterexample :
    (mobileStepReturns (.obj [("status_code", .num 0), ("item_list", .arr [.obj []])])).map
        VideoInfo.video_url = some (JVal.str "") :=
  rfl

/-- C1 counterexample: `_get_no_watermark_url` on a play-address URL
containing both `watermark=1` and `playwm` rewrites the toggle but keeps
the `playwm` path marker. -/
theorem c1_counterexample :
    get_no_watermark_url
        (awemeWithPlayAddr ["https://api.amemv.com/playwm/?video_id=v1&watermark=1"]) =
      .ok (.str "https://api.amemv.com/playwm/?video_id=v1&watermark=0") ∧
    strIn "playwm" "https://api.amemv.com/playwm/?video_id=v1&watermark=1" = true ∧
    strIn "watermark=1" "https://api.amemv.com/playwm/?video_id=v1&watermark=1" = true ∧
    strIn "playwm" "https://api.amemv.com/playwm/?video_id=v1&watermark=0" = true :=
  ⟨rfl, by decide, by decide, by decide⟩

/-- C5 counterexample: in the static-HTML strategy the keyword set lacks
`origin`, so a URL containing only `origin` is classified as detail, not
main, against the claim (the Playwright strategy does include `origin`). -/
theorem c5_counterexample :
    classifyHtml
        ["https://img.example.com/cover/a1b2c3d4.jpg",
         "https://img.example.com/origin/a1b2c3d4.jpg"] =
      (["https://img.example.com/cover/a1b2c3d4.jpg"],
       ["https://img.example.com/origin/a1b2c3d4.jpg"]) ∧
    strIn "origin" (pyLower "https://img.example.com/origin/a1b2c3d4.jpg") = true ∧
    classifyHtml
        ["https://img.example.com/cover/a1b2c3d4.jpg",
         "https://img.example.com/origin/a1b2c3d4.jpg"] ≠
      (["https://img.example.com/cover/a1b2c3d4.jpg",
        "https://img.example.com/origin/a1b2c3d4.jpg"], []) :=
  ⟨rfl, by decide, by decide⟩

/-- C6: the validity predicate rejects every URL shorter than 20 characters,
and every URL containing (case-insensitively) a disallow-listed substring,
regardless of its extension. -/
theorem c6_validity_rejects (url : String) :
    (url.length < 20 → validStr url = false) ∧
    (∀ d, d ∈ c6Disallow → strIn d (pyLower url) = true → validStr url = false) := by
  constructor
  · intro h
    by_cases h0 : url.length = 0
    · simp [validStr, h0]
    · simp [validStr, h0, h]
  · intro d hd h
    have hmem : d ∈ excludePats := by fin_cases hd <;> simp [excludePats]
    have hany : excludePats.any (fun p => strIn p (pyLower url)) = true :=
      List.any_eq_true.mpr ⟨d, hmem, h⟩
    by_cases h0 : url.length = 0
    · simp [validStr, h0]
    · by_cases h20 : url.length < 20
      · simp [validStr, h0, h20]
      · simp [validStr, h0, h20, hany]

/-- Witness for C6 at concrete inputs: a short URL and an URL containing
`icon` despite its valid extension are both rejected. -/
theorem c6_validity_rejects_witness :
    validStr "x.jpg" = false ∧
    validStr "https://example.com/img/icon1234.jpg" = false :=
  ⟨(c6_validity_rejects "x.jpg").1 (by decide),
   (c6_validity_rejects "https://example.com/img/icon1234.jpg").2 "icon" (by decide) (by decide)⟩

/-- C10: for a URL of length at least 20 with no disallow-listed substring
and no recognized image extension, validity holds exactly when the URL
contains one of the four hosting domains (checked on the lowered URL). -/
theorem c10_accept_iff_cdn (url : String) (h1 : 20 ≤ url.length)
    (h2 : excludePats.any (fun p => strIn p (pyLower url)) = false)
    (h3 : extList.any (fun e => strIn e (pyLower url)) = false) :
    validStr url = cdnList.any (fun c => strIn c (pyLower url)) := by
  have h0 : ¬url.length = 0 := by omega
  have h20 : ¬url.length < 20 := by omega
  simp only [validStr, h0, h20, h2, h3, if_false, Bool.not_false, Bool.true_and]
  cases hc : cdnList.any (fun c => strIn c (pyLower url)) <;> simp [hc]

/-- Witness for C10 at a concrete input: an extension-less URL on the
`ecombdimg.com` hosting domain is accepted. -/
theorem c10_accept_iff_cdn_witness :
    validStr "https://p1.ecombdimg.com/obj/token12" =
      cdnList.any (fun c => strIn c (pyLower "https://p1.ecombdimg.com/obj/token12")) ∧
    cdnList.any (fun c => strIn c (pyLower "https://p1.ecombdimg.com/obj/token12")) = true :=
  ⟨c10_accept_iff_cdn "https://p1.ecombdimg.com/obj/token12" (by decide) (by decide) (by decide),
   by decide⟩

/-- C4 amended: product identifier extraction yields the `SHORT_LINK`
pending sentinel when no pattern matches a douyin URL, and raises exactly
when no pattern matches and the URL is not a douyin URL.  (The video
parser, by contrast, raises whenever no pattern matches — see the
counterexample.) -/
theorem c4_identifier_amended (url : String) :
    (productIdSearch url = none ∧
        (strIn "v.douyin.com" url || strIn "douyin.com" url) = true →
      extract_product_id url = .ok "SHORT_LINK") ∧
    (isErr (extract_product_id url) = true ↔
      productIdSearch url = none ∧
        (strIn "v.douyin.com" url || strIn "douyin.com" url) = false) := by
  unfold extract_product_id
  cases h : productIdSearch url with
  | some i => simp [isErr]
  | none =>
    cases hb : (strIn "v.douyin.com" url || strIn "douyin.com" url) <;> simp [isErr, hb]

/-- Witness for the amended C4 theorem: a short link with no identifier
pattern gets the pending sentinel. -/
theorem c4_identifier_amended_witness :
    extract_product_id "https://v.douyin.com/abcDEF/" = .ok "SHORT_LINK" :=
  (c4_identifier_amended "https://v.douyin.com/abcDEF/").1 ⟨rfl, rfl⟩

/-- C2 amended: for a status-0 response with a single-item list, the
mobile-API strategy returns whatever `_extract_video_info_v2` produces as
a success (wrapped in `some`), with no check on the extracted `videoUrl`;
in particular an item with no play address yields a success whose
`videoUrl` is empty (see the counterexample). -/
theorem c2_mobile_api_amended (item : JVal) :
    parse_from_mobile_api (.obj [("status_code", .num 0), ("item_list", .arr [item])]) =
      (extract_video_info_v2 item).map some := by
  cases h : extract_video_info_v2 item with
  | error e =>
    simp [parse_from_mobile_api, pyGet1, pyGetD, lookupField, pyEqInt, pyTruthy, pyIndex0,
          h, Except.map, Bind.bind, Except.bind, pure, Except.pure]
  | ok vi =>
    simp [parse_from_mobile_api, pyGet1, pyGetD, lookupField, pyEqInt, pyTruthy, pyIndex0,
          h, Except.map, Bind.bind, Except.bind, pure, Except.pure]

/-- C1 amended: on a singleton play-address list whose URL contains the
watermark toggle, `_get_no_watermark_url` returns the URL with
`watermark=1` rewritten to `watermark=0` and nothing else changed — the
`playwm` marker is not removed (see the counterexample). -/
theorem c1_no_watermark_amended (u : String)
    (h1 : strIn "watermark" u = true)
    (h2 : strIn "v.douyin.com" (strReplace u "watermark=1" "watermark=0") = false) :
    get_no_watermark_url (awemeWithPlayAddr [u]) =
      .ok (.str (strReplace u "watermark=1" "watermark=0")) := by
  simp [get_no_watermark_url, awemeWithPlayAddr, pyGetD, lookupField, pyTruthy, pyIter,
        playAddrLoop, pyInJ, asStrRep, h1, h2,
        Bind.bind, Except.bind, pure, Except.pure]

/-- Witness for the amended C1 theorem at a concrete play-address URL. -/
theorem c1_no_watermark_amended_witness :
    get_no_watermark_url
        (awemeWithPlayAddr ["https://v26.douyinvod.com/playwm/video?watermark=1"]) =
      .ok (.str (strReplace "https://v26.douyinvod.com/playwm/video?watermark=1"
        "watermark=1" "watermark=0")) :=
  c1_no_watermark_amended "https://v26.douyinvod.com/playwm/video?watermark=1"
    (by decide) (by decide)

/-- The classification loop is the keyword partition of the input. -/
theorem classify_foldl_eq (f : String → Bool) (urls : List String) :
    ∀ (a b : List String),
      urls.foldl (classifyStep f) (a, b) =
        (a ++ urls.filter f, b ++ urls.filter (fun u => !f u)) := by
  induction urls with
  | nil => intro a b; simp
  | cons u rest ih =>
    intro a b
    simp only [List.foldl_cons, classifyStep, List.filter_cons]
    cases hf : f u <;> simp [hf, ih]

/-- C5 amended: both strategies partition the harvested URLs into keyword
matches (main) and the rest (detail) and promote the first five detail
URLs when no main was found — but the Playwright strategy matches the
keyword set main/primary/cover/thumb/origin case-insensitively, while the
static-HTML strategy matches only main/primary/cover/thumb, case-sensitively
(see the counterexample for the resulting divergence on `origin`). -/
theorem c5_classify_amended (urls : List String) :
    classifyPw urls =
      promoteFirst5 (urls.filter pwMatch, urls.filter (fun u => !pwMatch u)) ∧
    classifyHtml urls =
      promoteFirst5 (urls.filter htmlMatch, urls.filter (fun u => !htmlMatch u)) := by
  constructor <;>
    simp [classifyPw, classifyHtml, classifyImages, classify_foldl_eq]

/-- The image-list loop with the five-slot rule: accepted candidates fill
main up to five entries, the rest go to detail. -/
theorem appendCand_pushImage (imgs : List JVal) :
    ∀ (acc r : ExtractResult),
      appendCandidates pushImage imgs acc = .ok r →
      r.main = acc.main ++ (goodCands imgs).take (5 - acc.main.length) ∧
      r.detail = acc.detail ++ (goodCands imgs).drop (5 - acc.main.length) ∧
      r.title = acc.title ∧ r.video = acc.video := by
  induction imgs with
  | nil =>
    intro acc r h
    simp only [appendCandidates] at h
    cases h
    simp [goodCands]
  | cons img rest ih =>
    intro acc r h
    simp only [appendCandidates, Bind.bind, Except.bind] at h
    cases hc : elemCand img with
    | error e => rw [hc] at h; exact absurd h (by simp)
    | ok c =>
      rw [hc] at h
      dsimp only at h
      cases c with
      | none =>
        dsimp only at h
        have := ih acc r h
        simpa [goodCands, List.filterMap_cons, hc, exceptCand] using this
      | some u =>
        dsimp only at h
        simp only [goodCands, List.filterMap_cons, hc, exceptCand]
        by_cases h5 : acc.main.length < 5
        · have hs : pushImage acc u = pushMain acc u := by simp [pushImage, h5]
          rw [hs] at h
          have := ih (pushMain acc u) r h
          simp only [pushMain] at this
          obtain ⟨hm, hd, ht, hv⟩ := this
          have harith : 5 - acc.main.length = (5 - (acc.main.length + 1)) + 1 := by omega
          refine ⟨?_, ?_, ht, hv⟩
          · rw [hm]
            simp only [List.length_append, List.length_cons, List.length_nil]
            rw [harith, List.take_succ_cons, List.append_assoc]
            rfl
          · rw [hd]
            simp only [List.length_append, List.length_cons, List.length_nil]
            rw [harith, List.drop_succ_cons]
            simp [goodCands, exceptCand]
        · have hs : pushImage acc u = pushDetail acc u := by simp [pushImage, h5]
          rw [hs] at h
          have := ih (pushDetail acc u) r h
          simp only [pushDetail] at this
          obtain ⟨hm, hd, ht, hv⟩ := this
          have harith : 5 - acc.main.length = 0 := by omega
          refine ⟨?_, ?_, ht, hv⟩
          · rw [hm, harith]
            simp [goodCands, exceptCand]
          · rw [hd, harith]
            simp [goodCands, exceptCand]

/-- C9: when the generic image-list branch fires (an image key, a list
value) and completes without a Python error, the accepted candidates are
appended to main only while main has fewer than five entries; every
further candidate goes to detail; title and video are untouched. -/
theorem c9_image_list_split (kl : String) (imgs : List JVal) (acc r : ExtractResult)
    (hk : anySubKw imageKeys kl = true)
    (h : imageBranch kl (.arr imgs) acc = .ok r) :
    r.main = acc.main ++ (goodCands imgs).take (5 - acc.main.length) ∧
    r.detail = acc.detail ++ (goodCands imgs).drop (5 - acc.main.length) ∧
    r.title = acc.title ∧ r.video = acc.video := by
  have hpp : appendCandidates pushImage imgs acc = .ok r := by
    simpa [imageBranch, hk] using h
  exact appendCand_pushImage imgs acc r hpp

/-- Witness for C9: seven valid URLs under an `images` key split into five
main images and two detail images. -/
theorem c9_image_list_split_witness :
    c9Res.main = emptyResult.main ++ (goodCands c9Imgs).take (5 - emptyResult.main.length) ∧
    c9Res.detail = emptyResult.detail ++ (goodCands c9Imgs).drop (5 - emptyResult.main.length) ∧
    c9Res.title = emptyResult.title ∧ c9Res.video = emptyResult.video :=
  c9_image_list_split "images" c9Imgs emptyResult c9Res (by decide) (by rfl)
